import Mathlib

/-!
Verification of the open-panasonic-app navigation and platform-accessor layer.

The definitions below are a shallow embedding of the JavaScript sources:
  - src/js/remote-control.js   (RemoteControlHandler)
  - src/js/panasonic-api.js    (PanasonicTVAPI)
  - src/js/firefox-os-api.js   (FirefoxOSAPI)
DOM elements are modelled by the single piece of state the code reads or
writes on them (the active marker class); platform requests are modelled by
explicit outcome values (a synchronous throw, an asynchronous success signal,
or an asynchronous error signal), and promise results by Except.
-/

namespace OpenPanasonicApp

/-! ## RemoteControlHandler (src/js/remote-control.js) -/

/-- A navigation item (a DOM element of class nav-item): we track its identity
and whether it currently carries the active marker class. -/
structure NavItem where
  id : Nat
  active : Bool
deriving Repr, DecidableEq

/-- Mutable fields of RemoteControlHandler: currentFocus, navItems, isNavigating.
The constructor initialises currentFocus to 0; setFocus only ever stores a
nonnegative in-range number, so currentFocus is a natural number. -/
structure HandlerState where
  currentFocus : Nat
  navItems : List NavItem
  isNavigating : Bool
deriving Repr, DecidableEq

/-- The first half of setFocus: remove the active class from every item. -/
def clearActive (items : List NavItem) : List NavItem :=
  items.map (fun it => { it with active := false })

/-- setFocus(index): clears the active marker on every item, then, only when
0 <= index < navItems.length, stores the index and adds the marker to the
item at that index.  The argument is an integer because navigateLeft passes
navItems.length - 1, which is -1 in JavaScript when the list is empty. -/
def setFocus (s : HandlerState) (index : Int) : HandlerState :=
  if 0 ≤ index ∧ index < ((clearActive s.navItems).length : Int) then
    { s with currentFocus := index.toNat,
             navItems := (clearActive s.navItems).set index.toNat
               { (clearActive s.navItems).getD index.toNat { id := 0, active := false }
                   with active := true } }
  else
    { s with navItems := clearActive s.navItems }

/-- navigateLeft(): move to currentFocus - 1, wrapping to the last item from 0. -/
def navigateLeft (s : HandlerState) : HandlerState :=
  if s.currentFocus > 0 then
    setFocus s ((s.currentFocus : Int) - 1)
  else
    setFocus s ((s.navItems.length : Int) - 1)

/-- navigateRight(): move to currentFocus + 1, wrapping to the first item. -/
def navigateRight (s : HandlerState) : HandlerState :=
  if (s.currentFocus : Int) < (s.navItems.length : Int) - 1 then
    setFocus s ((s.currentFocus : Int) + 1)
  else
    setFocus s 0

/-- navigateUp(): reserved hook, leaves the handler state unchanged. -/
def navigateUp (s : HandlerState) : HandlerState := s

/-- navigateDown(): reserved hook, leaves the handler state unchanged. -/
def navigateDown (s : HandlerState) : HandlerState := s

/-- activateCurrentItem(): clicks the focused button, a side effect on
collaborators; the handler state itself is unchanged. -/
def activateCurrentItem (s : HandlerState) : HandlerState := s

/-- The part of the document the back-navigation path reads: whether the
element with id home-btn exists. -/
structure Dom where
  homeButtonPresent : Bool
deriving Repr, DecidableEq

/-- handleBackNavigation(): when the home button exists, click it and call
setFocus(0); otherwise do nothing.  The boolean result records whether the
home button was clicked. -/
def handleBackNavigation (dom : Dom) (s : HandlerState) : HandlerState × Bool :=
  if dom.homeButtonPresent then (setFocus s 0, true) else (s, false)

/-- updateNavItems(): re-query the document for nav items. -/
def updateNavItems (domItems : List NavItem) (s : HandlerState) : HandlerState :=
  { s with navItems := domItems }

/-- setInitialFocus(): focus item 0 when the list is non-empty. -/
def setInitialFocus (s : HandlerState) : HandlerState :=
  if s.navItems.length > 0 then setFocus s 0 else s

/-- reset(): updateNavItems, setInitialFocus, clear isNavigating. -/
def resetHandler (domItems : List NavItem) (s : HandlerState) : HandlerState :=
  let s1 := setInitialFocus (updateNavItems domItems s)
  { s1 with isNavigating := false }

/-! Basic lemmas about setFocus and the two horizontal moves. -/

theorem clearActive_length (items : List NavItem) :
    (clearActive items).length = items.length := by
  simp [clearActive]

theorem setFocus_length (s : HandlerState) (idx : Int) :
    (setFocus s idx).navItems.length = s.navItems.length := by
  unfold setFocus
  by_cases h : 0 ≤ idx ∧ idx < ((clearActive s.navItems).length : Int)
  · rw [if_pos h]
    simp [clearActive_length]
  · rw [if_neg h]
    simp [clearActive_length]

theorem setFocus_currentFocus_in (s : HandlerState) (idx : Int)
    (h0 : 0 ≤ idx) (h1 : idx < (s.navItems.length : Int)) :
    (setFocus s idx).currentFocus = idx.toNat := by
  have hc : 0 ≤ idx ∧ idx < ((clearActive s.navItems).length : Int) := by
    rw [clearActive_length]; exact ⟨h0, h1⟩
  unfold setFocus
  rw [if_pos hc]

theorem setFocus_currentFocus_out (s : HandlerState) (idx : Int)
    (h : ¬(0 ≤ idx ∧ idx < (s.navItems.length : Int))) :
    (setFocus s idx).currentFocus = s.currentFocus := by
  have hc : ¬(0 ≤ idx ∧ idx < ((clearActive s.navItems).length : Int)) := by
    rw [clearActive_length]; exact h
  unfold setFocus
  rw [if_neg hc]

theorem navigateRight_length (s : HandlerState) :
    (navigateRight s).navItems.length = s.navItems.length := by
  unfold navigateRight
  by_cases h : (s.currentFocus : Int) < (s.navItems.length : Int) - 1 <;>
    simp [h, setFocus_length]

theorem navigateLeft_length (s : HandlerState) :
    (navigateLeft s).navItems.length = s.navItems.length := by
  unfold navigateLeft
  by_cases h : s.currentFocus > 0 <;> simp [h, setFocus_length]

theorem navigateRight_currentFocus (s : HandlerState)
    (hn : 1 ≤ s.navItems.length) (hi : s.currentFocus < s.navItems.length) :
    (navigateRight s).currentFocus = (s.currentFocus + 1) % s.navItems.length := by
  unfold navigateRight
  by_cases h : (s.currentFocus : Int) < (s.navItems.length : Int) - 1
  · have hlt : s.currentFocus + 1 < s.navItems.length := by omega
    rw [if_pos h, setFocus_currentFocus_in s _ (by omega) (by omega)]
    rw [Nat.mod_eq_of_lt hlt]
    omega
  · have heq : s.currentFocus + 1 = s.navItems.length := by omega
    rw [if_neg h, setFocus_currentFocus_in s 0 le_rfl (by exact_mod_cast hn)]
    rw [heq, Nat.mod_self]
    rfl

theorem navigateLeft_currentFocus (s : HandlerState)
    (hn : 1 ≤ s.navItems.length) (hi : s.currentFocus < s.navItems.length) :
    (navigateLeft s).currentFocus =
      (s.currentFocus + s.navItems.length - 1) % s.navItems.length := by
  unfold navigateLeft
  by_cases h : s.currentFocus > 0
  · rw [if_pos h,
      setFocus_currentFocus_in s _ (by omega) (by omega)]
    have harith : s.currentFocus + s.navItems.length - 1 =
        (s.currentFocus - 1) + s.navItems.length := by omega
    rw [harith, Nat.add_mod_right, Nat.mod_eq_of_lt (by omega)]
    omega
  · have h0 : s.currentFocus = 0 := by omega
    rw [if_neg h,
      setFocus_currentFocus_in s _ (by omega) (by omega)]
    rw [h0, Nat.zero_add, Nat.mod_eq_of_lt (by omega)]
    omega

theorem navigateRight_iterate (s : HandlerState) (k : Nat)
    (hn : 1 ≤ s.navItems.length) (hi : s.currentFocus < s.navItems.length) :
    (navigateRight^[k] s).currentFocus = (s.currentFocus + k) % s.navItems.length ∧
    (navigateRight^[k] s).navItems.length = s.navItems.length := by
  induction k with
  | zero =>
    refine ⟨?_, rfl⟩
    rw [Function.iterate_zero_apply, Nat.add_zero, Nat.mod_eq_of_lt hi]
  | succ m ih =>
    obtain ⟨ihc, ihl⟩ := ih
    rw [Function.iterate_succ_apply']
    constructor
    · rw [navigateRight_currentFocus _ (by rw [ihl]; exact hn)
        (by rw [ihl, ihc]; exact Nat.mod_lt _ (by omega)), ihc, ihl,
        Nat.mod_add_mod, Nat.add_assoc]
    · rw [navigateRight_length, ihl]

/-- Key codes whose default behavior handleKeyPress suppresses:
Left, Up, Right, Down, Enter, Space.  Escape (27) is routed but absent here. -/
def navigationKeys : List Nat := [37, 38, 39, 40, 13, 32]

/-- handleKeyPress(event): preventDefault and set isNavigating for codes in
navigationKeys, then dispatch on the key code; unrecognized codes clear
isNavigating.  The boolean result records whether preventDefault was called. -/
def handleKeyPress (dom : Dom) (s : HandlerState) (keyCode : Nat) :
    HandlerState × Bool :=
  let prevented := navigationKeys.contains keyCode
  let s1 := if prevented then { s with isNavigating := true } else s
  let s2 :=
    if keyCode = 37 then navigateLeft s1
    else if keyCode = 38 then navigateUp s1
    else if keyCode = 39 then navigateRight s1
    else if keyCode = 40 then navigateDown s1
    else if keyCode = 13 ∨ keyCode = 32 then activateCurrentItem s1
    else if keyCode = 27 then (handleBackNavigation dom s1).1
    else { s1 with isNavigating := false }
  (s2, prevented)

/-! ## PanasonicTVAPI key handling (src/js/panasonic-api.js) -/

/-- The tvKeyCodes table from setupTVKeyHandling. -/
structure TVKeyCodes where
  RED : Nat
  GREEN : Nat
  YELLOW : Nat
  BLUE : Nat
  BACK : Nat
  MENU : Nat
  INFO : Nat
  EXIT : Nat
deriving Repr, DecidableEq

def tvKeyCodes : TVKeyCodes :=
  { RED := 403, GREEN := 404, YELLOW := 405, BLUE := 406,
    BACK := 461, MENU := 457, INFO := 457, EXIT := 27 }

/-- handleTVKeys(event): every matched case of the switch calls preventDefault;
this function returns whether some case matched. -/
def handleTVKeysPrevents (keyCode : Nat) : Bool :=
  keyCode == tvKeyCodes.RED || keyCode == tvKeyCodes.GREEN ||
  keyCode == tvKeyCodes.YELLOW || keyCode == tvKeyCodes.BLUE ||
  keyCode == tvKeyCodes.BACK || keyCode == tvKeyCodes.MENU ||
  keyCode == tvKeyCodes.EXIT

/-- The full key-event router: on a TV both document keydown listeners are
attached, so a key default is suppressed when either handler calls
preventDefault. -/
def routerPreventsDefault (dom : Dom) (s : HandlerState) (keyCode : Nat) : Bool :=
  (handleKeyPress dom s keyCode).2 || handleTVKeysPrevents keyCode

/-- The key codes the router recognizes: directional, activate and back codes
of handleKeyPress plus the colored, menu and exit codes of handleTVKeys. -/
def recognizedKeyCodes : List Nat :=
  [37, 38, 39, 40, 13, 32, 27, 403, 404, 405, 406, 457, 461]

/-! ## Content navigation (enableContentNavigation in remote-control.js) -/

/-- The closure state of enableContentNavigation: the number of focusable
elements found in the content element and the contentFocus counter. -/
structure ContentScope where
  elementCount : Nat
  contentFocus : Nat
deriving Repr, DecidableEq

/-- Navigation state of the whole page: the handler plus the optional active
content scope. -/
structure AppNav where
  handler : HandlerState
  scope : Option ContentScope
deriving Repr, DecidableEq

/-- enableContentNavigation(element): does nothing when the element has no
focusable children; otherwise starts a scope with contentFocus = 0.  The
handler fields are not touched. -/
def enableContentNavigation (focusableCount : Nat) (s : AppNav) : AppNav :=
  if focusableCount = 0 then s
  else { s with scope := some { elementCount := focusableCount, contentFocus := 0 } }

/-- navigateContent(direction): clamped vertical movement inside the scope. -/
def navigateContent (cs : ContentScope) (down : Bool) : ContentScope :=
  if down then { cs with contentFocus := min (cs.elementCount - 1) (cs.contentFocus + 1) }
  else { cs with contentFocus := cs.contentFocus - 1 }

/-- The keydown listener installed by enableContentNavigation on the content
element only: Up and Down move inside the scope; Left and Right return to the
main navigation by calling setFocus(currentFocus) on the handler.  This
listener calls preventDefault but never stopPropagation, so the same event
afterwards bubbles to the document listeners. -/
def contentKeydown (keyCode : Nat) (s : AppNav) : AppNav :=
  match s.scope with
  | none => s
  | some cs =>
    if keyCode = 38 then { s with scope := some (navigateContent cs false) }
    else if keyCode = 40 then { s with scope := some (navigateContent cs true) }
    else if keyCode = 37 ∨ keyCode = 39 then
      { s with handler := setFocus s.handler (s.handler.currentFocus : Int) }
    else s

/-- The full page response to one keydown dispatched at an element inside the
content region: in the bubbling phase the content-element listener fires
first, and because it never calls stopPropagation the event then reaches the
document listener handleKeyPress, which navigates again on the same key.
(handleTVKeys, also on document, does not touch the handler state for the
directional codes.) -/
def pageKeydown (dom : Dom) (s : AppNav) (keyCode : Nat) : AppNav :=
  let s1 := contentKeydown keyCode s
  { s1 with handler := (handleKeyPress dom s1.handler keyCode).1 }

/-! Lemmas about the marker class after setFocus.  The observation function
itemActive reports whether the item at a position carries the marker class;
positions outside the list report false. -/

/-- Whether the item at position j carries the active marker class. -/
def itemActive (items : List NavItem) (j : Nat) : Bool :=
  match items, j with
  | [], _ => false
  | it :: _, 0 => it.active
  | _ :: rest, n + 1 => itemActive rest n

theorem itemActive_clearActive (items : List NavItem) (j : Nat) :
    itemActive (clearActive items) j = false := by
  induction items generalizing j with
  | nil => rfl
  | cons a rest ih =>
    cases j with
    | zero => rfl
    | succ n => exact ih n

theorem itemActive_marked (items : List NavItem) (i j : Nat) (x : NavItem)
    (hx : x.active = true) (hi : i < items.length) :
    itemActive ((clearActive items).set i x) j = decide (j = i) := by
  induction items generalizing i j with
  | nil => simp at hi
  | cons a rest ih =>
    cases i with
    | zero =>
      cases j with
      | zero => simpa using hx
      | succ n =>
        have h1 : itemActive ((clearActive (a :: rest)).set 0 x) (n + 1)
            = itemActive (clearActive rest) n := rfl
        rw [h1, itemActive_clearActive]
        simp
    | succ m =>
      cases j with
      | zero => simp [clearActive, itemActive]
      | succ n =>
        have hm : m < rest.length := by simpa using hi
        have := ih m n hm
        simpa [clearActive, itemActive] using this

theorem setFocus_navItems_in (s : HandlerState) (idx : Int)
    (h0 : 0 ≤ idx) (h1 : idx < (s.navItems.length : Int)) :
    (setFocus s idx).navItems = (clearActive s.navItems).set idx.toNat
      { (clearActive s.navItems).getD idx.toNat { id := 0, active := false }
          with active := true } := by
  have hc : 0 ≤ idx ∧ idx < ((clearActive s.navItems).length : Int) := by
    rw [clearActive_length]; exact ⟨h0, h1⟩
  simp only [setFocus, if_pos hc]

theorem setFocus_navItems_out (s : HandlerState) (idx : Int)
    (h : ¬(0 ≤ idx ∧ idx < (s.navItems.length : Int))) :
    (setFocus s idx).navItems = clearActive s.navItems := by
  have hc : ¬(0 ≤ idx ∧ idx < ((clearActive s.navItems).length : Int)) := by
    rw [clearActive_length]; exact h
  simp only [setFocus, if_neg hc]

theorem setFocus_itemActive_in (s : HandlerState) (idx : Int)
    (h0 : 0 ≤ idx) (h1 : idx < (s.navItems.length : Int)) (j : Nat) :
    itemActive (setFocus s idx).navItems j = decide (j = idx.toNat) := by
  rw [setFocus_navItems_in s idx h0 h1]
  exact itemActive_marked s.navItems idx.toNat j _ rfl (by omega)

theorem setFocus_itemActive_out (s : HandlerState) (idx : Int)
    (h : ¬(0 ≤ idx ∧ idx < (s.navItems.length : Int))) (j : Nat) :
    itemActive (setFocus s idx).navItems j = false := by
  rw [setFocus_navItems_out s idx h]
  exact itemActive_clearActive s.navItems j

theorem setFocus_self_currentFocus (s : HandlerState) :
    (setFocus s (s.currentFocus : Int)).currentFocus = s.currentFocus := by
  by_cases h : (0 : Int) ≤ (s.currentFocus : Int) ∧
      (s.currentFocus : Int) < (s.navItems.length : Int)
  · rw [setFocus_currentFocus_in s _ h.1 h.2]
    simp
  · rw [setFocus_currentFocus_out s _ h]

/-! ## Concrete states used by the witnesses -/

/-- A three-item handler state with the marker on item 0. -/
def demoState3 : HandlerState :=
  { currentFocus := 0,
    navItems := [{ id := 0, active := true }, { id := 1, active := false },
                 { id := 2, active := false }],
    isNavigating := false }

/-- A two-item handler state currently focused on item 1. -/
def demoStaleTwo : HandlerState :=
  { currentFocus := 1,
    navItems := [{ id := 0, active := false }, { id := 1, active := true }],
    isNavigating := true }

/-- A page state with no active content scope, focused on item 1. -/
def demoAppNav : AppNav :=
  { handler := demoStaleTwo, scope := none }

/-! ## The focus invariant and the engine operations -/

/-- The data-model invariant: once the item sequence is non-empty, the index
is in range and the marker class sits on exactly the item at currentFocus. -/
def focusInv (s : HandlerState) : Prop :=
  s.navItems ≠ [] →
    s.currentFocus < s.navItems.length ∧
    ∀ j, j < s.navItems.length → (itemActive s.navItems j = true ↔ j = s.currentFocus)

instance (s : HandlerState) : Decidable (focusInv s) := by
  unfold focusInv
  infer_instance

/-- The operations through which the engine is driven: the four directional
moves, activation, back navigation (with the home-button environment), and
reset (with the re-queried document items). -/
inductive EngineOp where
  | left
  | right
  | up
  | down
  | activate
  | back (dom : Dom)
  | reset (domItems : List NavItem)

/-- Apply one engine operation to the handler state. -/
def applyOp : EngineOp → HandlerState → HandlerState
  | .left, s => navigateLeft s
  | .right, s => navigateRight s
  | .up, s => navigateUp s
  | .down, s => navigateDown s
  | .activate, s => activateCurrentItem s
  | .back dom, s => (handleBackNavigation dom s).1
  | .reset domItems, s => resetHandler domItems s

theorem focusInv_setFocus (s : HandlerState) (idx : Int)
    (h0 : 0 ≤ idx) (h1 : idx < (s.navItems.length : Int)) :
    focusInv (setFocus s idx) := by
  intro _hne
  constructor
  · rw [setFocus_currentFocus_in s idx h0 h1, setFocus_length]
    omega
  · intro j hj
    rw [setFocus_itemActive_in s idx h0 h1 j, setFocus_currentFocus_in s idx h0 h1]
    simp

theorem focusInv_of_nil (t : HandlerState) (hlen : t.navItems.length = 0) :
    focusInv t := by
  intro hne
  exact absurd (List.length_eq_zero.mp hlen) hne

theorem focusInv_navigateLeft (s : HandlerState) (h : focusInv s) :
    focusInv (navigateLeft s) := by
  by_cases hnil : s.navItems = []
  · exact focusInv_of_nil _ (by rw [navigateLeft_length, hnil]; rfl)
  · obtain ⟨hcf, _⟩ := h hnil
    have hn1 : 0 < s.navItems.length := List.length_pos.mpr hnil
    unfold navigateLeft
    by_cases hpos : s.currentFocus > 0
    · rw [if_pos hpos]
      exact focusInv_setFocus s _ (by omega) (by omega)
    · rw [if_neg hpos]
      exact focusInv_setFocus s _ (by omega) (by omega)

theorem focusInv_navigateRight (s : HandlerState) (h : focusInv s) :
    focusInv (navigateRight s) := by
  by_cases hnil : s.navItems = []
  · exact focusInv_of_nil _ (by rw [navigateRight_length, hnil]; rfl)
  · obtain ⟨hcf, _⟩ := h hnil
    have hn1 : 0 < s.navItems.length := List.length_pos.mpr hnil
    unfold navigateRight
    by_cases hlt : (s.currentFocus : Int) < (s.navItems.length : Int) - 1
    · rw [if_pos hlt]
      exact focusInv_setFocus s _ (by omega) (by omega)
    · rw [if_neg hlt]
      exact focusInv_setFocus s 0 le_rfl (by omega)

theorem focusInv_back (dom : Dom) (s : HandlerState) (h : focusInv s) :
    focusInv (handleBackNavigation dom s).1 := by
  unfold handleBackNavigation
  by_cases hdom : dom.homeButtonPresent = true
  · rw [if_pos hdom]
    by_cases hnil : s.navItems = []
    · exact focusInv_of_nil _ (by rw [setFocus_length, hnil]; rfl)
    · exact focusInv_setFocus s 0 le_rfl
        (by have := List.length_pos.mpr hnil; omega)
  · rw [if_neg hdom]
    exact h

theorem focusInv_reset (domItems : List NavItem) (s : HandlerState) (_h : focusInv s) :
    focusInv (resetHandler domItems s) := by
  unfold resetHandler updateNavItems setInitialFocus
  by_cases hlen : domItems.length > 0
  · have hinv := focusInv_setFocus
      { s with navItems := domItems } 0 le_rfl (by simpa using hlen)
    simp only [if_pos hlen]
    intro hne
    exact hinv hne
  · simp only [if_neg hlen]
    intro hne
    have hd : domItems = [] := List.length_eq_zero.mp (by omega)
    exact absurd hd hne

/-! ## Claim theorems: navigation engine -/

/-- C1: with n ≥ 2 focusable items and a current index i < n, navigateRight
moves the index to (i + 1) mod n and navigateLeft to (i - 1 + n) mod n
(written i + n - 1 over the naturals), and navigateRight applied n times
returns to the starting index. -/
theorem c1_horizontal_wraparound (s : HandlerState)
    (hn : 2 ≤ s.navItems.length) (hi : s.currentFocus < s.navItems.length) :
    (navigateRight s).currentFocus = (s.currentFocus + 1) % s.navItems.length ∧
    (navigateLeft s).currentFocus =
      (s.currentFocus + s.navItems.length - 1) % s.navItems.length ∧
    (navigateRight^[s.navItems.length] s).currentFocus = s.currentFocus := by
  refine ⟨navigateRight_currentFocus s (by omega) hi,
          navigateLeft_currentFocus s (by omega) hi, ?_⟩
  rw [(navigateRight_iterate s s.navItems.length (by omega) hi).1,
      Nat.add_mod_right, Nat.mod_eq_of_lt hi]

/-- Witness for c1_horizontal_wraparound on a three-item sequence. -/
theorem c1_horizontal_wraparound_witness :
    (navigateRight demoState3).currentFocus =
      (demoState3.currentFocus + 1) % demoState3.navItems.length ∧
    (navigateLeft demoState3).currentFocus =
      (demoState3.currentFocus + demoState3.navItems.length - 1) %
        demoState3.navItems.length ∧
    (navigateRight^[demoState3.navItems.length] demoState3).currentFocus =
      demoState3.currentFocus :=
  c1_horizontal_wraparound demoState3 (by decide) (by decide)

/-- C3 counterexample: with the home button present but an empty item
sequence and a stale currentFocus of 1, handleBackNavigation leaves
currentFocus at 1, not 0 — so it does not reset the index from every state. -/
theorem c3_counterexample :
    (handleBackNavigation { homeButtonPresent := true }
      { currentFocus := 1, navItems := [], isNavigating := false }).1.currentFocus
      ≠ 0 := by
  decide

/-- C3 amended: whenever the home button exists and the item sequence is
non-empty, handleBackNavigation (from any state, in particular regardless of
any content-scope parent index) clicks the home button and resets
currentFocus to 0. -/
theorem c3_back_navigation_resets (dom : Dom) (s : HandlerState)
    (hdom : dom.homeButtonPresent = true) (hne : s.navItems ≠ []) :
    (handleBackNavigation dom s).1.currentFocus = 0 ∧
    (handleBackNavigation dom s).2 = true := by
  have hn1 : 0 < s.navItems.length := List.length_pos.mpr hne
  unfold handleBackNavigation
  rw [if_pos hdom]
  refine ⟨?_, rfl⟩
  have := setFocus_currentFocus_in s 0 le_rfl (by omega)
  simpa using this

/-- Witness for c3_back_navigation_resets. -/
theorem c3_back_navigation_resets_witness :
    (handleBackNavigation { homeButtonPresent := true } demoStaleTwo).1.currentFocus
      = 0 ∧
    (handleBackNavigation { homeButtonPresent := true } demoStaleTwo).2 = true :=
  c3_back_navigation_resets { homeButtonPresent := true } demoStaleTwo rfl (by decide)

/-- C4: on a TV, where both document keydown listeners are attached, the
router calls preventDefault exactly for the recognized key codes: the
directional, activate and back codes of handleKeyPress plus the vendor
colored, menu and exit codes of handleTVKeys; all other codes pass through
untouched.  The suppression of code 27 comes from handleTVKeys, not from
handleKeyPress. -/
theorem c4_router_suppresses_recognized (dom : Dom) (s : HandlerState)
    (keyCode : Nat) :
    routerPreventsDefault dom s keyCode = true ↔ keyCode ∈ recognizedKeyCodes := by
  have hsnd : (handleKeyPress dom s keyCode).2 = navigationKeys.contains keyCode := rfl
  simp only [routerPreventsDefault, hsnd, handleTVKeysPrevents, tvKeyCodes,
    navigationKeys, recognizedKeyCodes, Bool.or_eq_true, beq_iff_eq,
    List.contains, List.elem_eq_mem, decide_eq_true_eq, List.mem_cons,
    List.not_mem_nil, or_false]
  tauto

/-- C8: the code contradicts the claim.  Entering the scope leaves the
handler untouched and the content listener on exit calls
setFocus(currentFocus), but the same Left keydown bubbles to the document
listener handleKeyPress (no stopPropagation is ever called), whose
navigateLeft then moves the just-restored index.  Evaluated at the failing
input — two items, currentFocus 1 before entry, scope of two elements, one
keydown with code 37 — the page ends at currentFocus 0, not the pre-entry 1,
even though the content listener alone would have preserved it. -/
theorem c8_scope_exit_overridden :
    demoAppNav.handler.currentFocus = 1 ∧
    (enableContentNavigation 2 demoAppNav).handler = demoAppNav.handler ∧
    (contentKeydown 37 (enableContentNavigation 2 demoAppNav)).handler.currentFocus
      = 1 ∧
    (pageKeydown { homeButtonPresent := true } (enableContentNavigation 2 demoAppNav)
      37).handler.currentFocus = 0 := by
  decide

/-- C9: every engine operation preserves the focus invariant: once the item
sequence is non-empty, the index stays in range and the active marker sits on
exactly the item at currentFocus (each focus change clears the marker from
every item before marking the new one, so no second marker can survive). -/
theorem c9_focus_invariant_preserved (op : EngineOp) (s : HandlerState)
    (h : focusInv s) : focusInv (applyOp op s) := by
  cases op with
  | left => exact focusInv_navigateLeft s h
  | right => exact focusInv_navigateRight s h
  | up => exact h
  | down => exact h
  | activate => exact h
  | back dom => exact focusInv_back dom s h
  | reset domItems => exact focusInv_reset domItems s h

/-- Witness for c9_focus_invariant_preserved. -/
theorem c9_focus_invariant_preserved_witness :
    focusInv (applyOp .right demoState3) :=
  c9_focus_invariant_preserved .right demoState3 (by decide)

/-- C10: setFocus with any out-of-range index (in particular any index at all
when the item sequence is empty) leaves currentFocus unchanged and raises no
error, but still strips the active marker from every item, so afterwards no
item is marked. -/
theorem c10_setFocus_out_of_range (s : HandlerState) (idx : Int)
    (h : ¬(0 ≤ idx ∧ idx < (s.navItems.length : Int))) :
    (setFocus s idx).currentFocus = s.currentFocus ∧
    ∀ j, itemActive (setFocus s idx).navItems j = false :=
  ⟨setFocus_currentFocus_out s idx h, fun j => setFocus_itemActive_out s idx h j⟩

/-- Witness for c10_setFocus_out_of_range: index 5 on a three-item sequence. -/
theorem c10_setFocus_out_of_range_witness :
    (setFocus demoState3 5).currentFocus = demoState3.currentFocus ∧
    ∀ j, itemActive (setFocus demoState3 5).navItems j = false :=
  c10_setFocus_out_of_range demoState3 5 (by decide)

/-! ## FirefoxOSAPI accessors (src/js/firefox-os-api.js)

Asynchronous platform requests carry two distinct failure channels, both
present in the source: the platform call itself can throw synchronously
(caught by the try block of each accessor), or the returned request can fire
its onerror callback (which the accessor turns into a promise rejection).
Promise results are modelled by Except: ok is a resolved promise and error a
rejected one. -/

/-- Provider errors are opaque values. -/
abbrev Err := String

/-- Outcome of settings.createLock().get(key). -/
inductive SettingsGet where
  | syncThrow
  | success (value : Option String)
  | error (e : Err)
deriving Repr, DecidableEq

/-- Outcome of settings.createLock().set(setting). -/
inductive SetOutcome where
  | syncThrow
  | success
  | error (e : Err)
deriving Repr, DecidableEq

/-- The behavior of navigator.mozSettings as the accessors observe it. -/
structure SettingsProvider where
  get : String → SettingsGet
  set : String → String → SetOutcome

/-- One event of a device-storage enumeration cursor: onsuccess with a file,
onsuccess with no file (completion), or onerror. -/
inductive CursorEvent where
  | yield (file : String)
  | complete
  | error (e : Err)
deriving Repr, DecidableEq

/-- The behavior of one device-storage area: storage.enumerate(path) either
throws synchronously or produces a cursor delivering the listed events. -/
inductive StorageBehavior where
  | syncThrow
  | cursor (events : List CursorEvent)
deriving Repr, DecidableEq

/-- One installed app as launchApp sees it: its origin and whether its own
launch request would succeed.  launchApp never reads the second field. -/
structure AppInfo where
  origin : String
  launchSucceeds : Bool
deriving Repr, DecidableEq

/-- Outcome of navigator.mozApps.getInstalled(). -/
inductive InstalledLookup where
  | syncThrow
  | success (apps : List AppInfo)
  | error (e : Err)
deriving Repr, DecidableEq

/-- The fields of the FirefoxOSAPI object that the four accessors consult:
this.settings, the three storage areas, capabilities.apps, and the response
of the installed-apps lookup. -/
structure FirefoxOSState where
  settings : Option SettingsProvider
  videoStorage : Option StorageBehavior
  musicStorage : Option StorageBehavior
  pictureStorage : Option StorageBehavior
  appsCapability : Bool
  installedApps : InstalledLookup

/-- getSystemSetting(key): null when no settings provider; null when the
platform call throws; the onsuccess value on success; a rejection carrying
the provider error when onerror fires. -/
def getSystemSetting (st : FirefoxOSState) (key : String) :
    Except Err (Option String) :=
  match st.settings with
  | none => .ok none
  | some p =>
    match p.get key with
    | .syncThrow => .ok none
    | .success v => .ok v
    | .error e => .error e

/-- setSystemSetting(key, value): false when no provider or on a synchronous
throw; true on the provider success signal; rejected on onerror. -/
def setSystemSetting (st : FirefoxOSState) (key value : String) :
    Except Err Bool :=
  match st.settings with
  | none => .ok false
  | some p =>
    match p.set key value with
    | .syncThrow => .ok false
    | .success => .ok true
    | .error e => .error e

/-- The cursor loop of getStorageFiles: push each yielded file and continue;
resolve the collected list at completion; reject on onerror.  A cursor that
stops firing callbacks leaves the promise pending, modelled by none. -/
def enumerateDrain (acc : List String) :
    List CursorEvent → Option (Except Err (List String))
  | [] => none
  | .yield f :: rest => enumerateDrain (acc ++ [f]) rest
  | .complete :: _ => some (.ok acc)
  | .error e :: _ => some (.error e)

/-- The switch at the top of getStorageFiles: none for an unknown storage
type, otherwise the matching storage field. -/
def storageOf (st : FirefoxOSState) : String → Option (Option StorageBehavior)
  | "videos" => some st.videoStorage
  | "music" => some st.musicStorage
  | "pictures" => some st.pictureStorage
  | _ => none

/-- getStorageFiles(storageType, path): an empty list for an unknown storage
type, a missing storage area, or a synchronous throw of enumerate; otherwise
the result of draining the cursor. -/
def getStorageFiles (st : FirefoxOSState) (storageType : String) :
    Option (Except Err (List String)) :=
  match storageOf st storageType with
  | none => some (.ok [])
  | some none => some (.ok [])
  | some (some .syncThrow) => some (.ok [])
  | some (some (.cursor events)) => enumerateDrain [] events

/-- launchApp(appOrigin): false when capabilities.apps is absent or the
lookup throws synchronously; rejected when the lookup fires onerror; when the
lookup succeeds, true exactly when some installed app matches the origin —
the launch request of the matched app is issued but its outcome is never
awaited. -/
def launchApp (st : FirefoxOSState) (appOrigin : String) : Except Err Bool :=
  if st.appsCapability = false then .ok false
  else
    match st.installedApps with
    | .syncThrow => .ok false
    | .error e => .error e
    | .success apps =>
      match apps.find? (fun a => a.origin == appOrigin) with
      | some _ => .ok true
      | none => .ok false

theorem enumerateDrain_yields (files : List String) (acc : List String)
    (rest : List CursorEvent) :
    enumerateDrain acc (files.map CursorEvent.yield ++ rest) =
      enumerateDrain (acc ++ files) rest := by
  induction files generalizing acc with
  | nil => simp
  | cons f fs ih =>
    have h1 : (f :: fs).map CursorEvent.yield ++ rest =
        CursorEvent.yield f :: (fs.map CursorEvent.yield ++ rest) := rfl
    rw [h1]
    show enumerateDrain (acc ++ [f]) (fs.map CursorEvent.yield ++ rest) =
      enumerateDrain (acc ++ f :: fs) rest
    rw [ih (acc ++ [f])]
    simp

/-! ## PanasonicTVAPI system info (src/js/panasonic-api.js) -/

/-- A system-info record.  The firefoxOS flag is present only on the record
built by getFirefoxOSSystemInfo; the other paths leave it false. -/
structure SystemInfo where
  model : String
  version : String
  platform : String
  firefoxOS : Bool
deriving Repr, DecidableEq

/-- Behavior of window.panasonic.system.getInfo(). -/
inductive NativeSystemBehavior where
  | throws
  | returns (info : SystemInfo)
deriving Repr, DecidableEq

/-- The environment getSystemInfo probes: the native Panasonic system object,
the presence of navigator.mozApps, and the window.firefoxOSAPI object. -/
structure PanasonicEnv where
  panasonicSystem : Option NativeSystemBehavior
  mozApps : Bool
  firefoxOSAPI : Option FirefoxOSState

/-- The fallback record returned when neither platform path yields. -/
def fallbackSystemInfo : SystemInfo :=
  { model := "Unknown Panasonic TV", version := "1.0",
    platform := "Panasonic TV (Firefox OS-based)", firefoxOS := false }

/-- JavaScript or-default on a possibly absent string: the empty string is
falsy, so it also falls back. -/
def jsOr (v : Option String) (d : String) : String :=
  match v with
  | some s => if s = "" then d else s
  | none => d

/-- getFirefoxOSSystemInfo(): null without a firefoxOSAPI object; otherwise
read two settings, returning null if either read rejects, else the derived
record. -/
def getFirefoxOSSystemInfo (ffAPI : Option FirefoxOSState) : Option SystemInfo :=
  match ffAPI with
  | none => none
  | some st =>
    match getSystemSetting st "deviceinfo.hardware" with
    | .error _ => none
    | .ok hw =>
      match getSystemSetting st "deviceinfo.os" with
      | .error _ => none
      | .ok os =>
        some { model := jsOr hw "Panasonic TV", version := jsOr os "1.0",
               platform := "Panasonic TV (Firefox OS)", firefoxOS := true }

/-- getSystemInfo(): the native record when window.panasonic.system answers;
the fallback record when the native call throws (the catch skips the Firefox
OS branch) or when the Firefox OS path is not taken; otherwise whatever
getFirefoxOSSystemInfo yields - possibly null.  The result type Option
SystemInfo has no rejection channel: the function never rejects. -/
def getSystemInfo (env : PanasonicEnv) : Option SystemInfo :=
  match env.panasonicSystem with
  | some (.returns info) => some info
  | some .throws => some fallbackSystemInfo
  | none =>
    if env.mozApps && env.firefoxOSAPI.isSome then
      getFirefoxOSSystemInfo env.firefoxOSAPI
    else
      some fallbackSystemInfo


/-! ## Concrete platform states used by the witnesses and counterexamples -/

/-- A FirefoxOSAPI object with nothing available. -/
def ffBase : FirefoxOSState :=
  { settings := none, videoStorage := none, musicStorage := none,
    pictureStorage := none, appsCapability := false,
    installedApps := .syncThrow }

/-- A settings provider whose platform calls throw synchronously. -/
def pThrow : SettingsProvider :=
  { get := fun _ => .syncThrow, set := fun _ _ => .syncThrow }

/-- A settings provider whose requests fire onerror. -/
def pErr : SettingsProvider :=
  { get := fun _ => .error "boom", set := fun _ _ => .error "boom" }

/-- A platform whose settings provider throws synchronously. -/
def ffThrowSettings : FirefoxOSState := { ffBase with settings := some pThrow }

/-- A platform whose settings requests fire onerror. -/
def ffErrSettings : FirefoxOSState := { ffBase with settings := some pErr }

/-- A platform whose video storage enumerate call throws synchronously. -/
def ffThrowStorage : FirefoxOSState := { ffBase with videoStorage := some .syncThrow }

/-- A platform whose video cursor yields one file and then fires onerror. -/
def ffErrStorage : FirefoxOSState :=
  { ffBase with videoStorage := some (.cursor [.yield "a", .error "boom"]) }

/-- A platform whose video cursor yields a, b, c and then completes. -/
def ffABCStorage : FirefoxOSState :=
  { ffBase with
      videoStorage := some (.cursor [.yield "a", .yield "b", .yield "c", .complete]) }

/-- App management present but the installed-apps lookup throws. -/
def ffCapOnly : FirefoxOSState := { ffBase with appsCapability := true }

/-- App management present, lookup fires onerror. -/
def ffErrApps : FirefoxOSState :=
  { ffBase with appsCapability := true, installedApps := .error "boom" }

/-- App management present, no installed apps. -/
def ffEmptyApps : FirefoxOSState :=
  { ffBase with appsCapability := true, installedApps := .success [] }

/-- An installed app whose own launch request would fail. -/
def launchFailApp : AppInfo := { origin := "app://target", launchSucceeds := false }

/-- App management present, one matching app whose launch would fail. -/
def ffLaunchFail : FirefoxOSState :=
  { ffBase with appsCapability := true, installedApps := .success [launchFailApp] }

/-- An installed app whose launch request would succeed. -/
def musicApp : AppInfo := { origin := "app://music", launchSucceeds := true }

/-- App management present, one app with a healthy launch. -/
def ffMusicApps : FirefoxOSState :=
  { ffBase with appsCapability := true, installedApps := .success [musicApp] }

/-- A native system-info record for the witness. -/
def demoInfo : SystemInfo :=
  { model := "TX-40", version := "2.0", platform := "Viera", firefoxOS := false }

/-- A native platform that answers with demoInfo. -/
def envNative : PanasonicEnv :=
  { panasonicSystem := some (.returns demoInfo), mozApps := false, firefoxOSAPI := none }

/-- A native platform whose getInfo call throws. -/
def envThrows : PanasonicEnv :=
  { panasonicSystem := some .throws, mozApps := false, firefoxOSAPI := none }

/-- mozApps present but no firefoxOSAPI object. -/
def envNoFF : PanasonicEnv :=
  { panasonicSystem := none, mozApps := true, firefoxOSAPI := none }

/-- The Firefox OS path taken with an empty platform behind it. -/
def envFF : PanasonicEnv :=
  { panasonicSystem := none, mozApps := true, firefoxOSAPI := some ffBase }

/-- The Firefox OS path taken with rejecting settings behind it. -/
def envFFErr : PanasonicEnv :=
  { panasonicSystem := none, mozApps := true, firefoxOSAPI := some ffErrSettings }

/-- A fully-unavailable platform. -/
def envUnavailable : PanasonicEnv :=
  { panasonicSystem := none, mozApps := false, firefoxOSAPI := none }

/-! ## Claim theorems: platform accessors -/

/-- C2 counterexample: with a settings provider whose get request fires
onerror, getSystemSetting hands the provider error to the caller as a
rejected promise instead of converting it to the documented null — the
try/catch of the accessor only guards the synchronous part of the call. -/
theorem c2_counterexample :
    getSystemSetting ffErrSettings "k" = .error "boom" ∧
    getSystemSetting ffErrSettings "k" ≠ .ok none :=
  ⟨rfl, by simp [getSystemSetting, ffErrSettings, pErr, ffBase]⟩

/-- C2 amended: each accessor converts a missing provider and a synchronous
throw of the platform call into its documented empty/null/false result, but
an error signalled through the provider asynchronous error callback is
propagated to the caller as a rejected promise. -/
theorem c2_error_policy (st : FirefoxOSState) (p : SettingsProvider)
    (key value appOrigin : String) (e : Err) :
    (st.settings = none → getSystemSetting st key = .ok none) ∧
    (st.settings = some p → p.get key = .syncThrow →
      getSystemSetting st key = .ok none) ∧
    (st.settings = some p → p.get key = .error e →
      getSystemSetting st key = .error e) ∧
    (st.settings = none → setSystemSetting st key value = .ok false) ∧
    (st.settings = some p → p.set key value = .syncThrow →
      setSystemSetting st key value = .ok false) ∧
    (st.settings = some p → p.set key value = .error e →
      setSystemSetting st key value = .error e) ∧
    (st.videoStorage = some .syncThrow →
      getStorageFiles st "videos" = some (.ok [])) ∧
    (∀ files : List String,
      st.videoStorage = some (.cursor (files.map CursorEvent.yield
        ++ [CursorEvent.error e])) →
      getStorageFiles st "videos" = some (.error e)) ∧
    (st.appsCapability = false → launchApp st appOrigin = .ok false) ∧
    (st.appsCapability = true → st.installedApps = .syncThrow →
      launchApp st appOrigin = .ok false) ∧
    (st.appsCapability = true → st.installedApps = .error e →
      launchApp st appOrigin = .error e) := by
  have hvid : storageOf st "videos" = some st.videoStorage := rfl
  refine ⟨fun h => by simp [getSystemSetting, h],
          fun h hg => by simp [getSystemSetting, h, hg],
          fun h hg => by simp [getSystemSetting, h, hg],
          fun h => by simp [setSystemSetting, h],
          fun h hs => by simp [setSystemSetting, h, hs],
          fun h hs => by simp [setSystemSetting, h, hs],
          fun h => by unfold getStorageFiles; rw [hvid, h],
          fun files h => ?_,
          fun h => by simp [launchApp, h],
          fun h hli => by simp [launchApp, h, hli],
          fun h hli => by simp [launchApp, h, hli]⟩
  unfold getStorageFiles
  rw [hvid, h]
  show enumerateDrain [] (files.map CursorEvent.yield ++ [CursorEvent.error e])
    = some (.error e)
  rw [enumerateDrain_yields files [] [CursorEvent.error e]]
  simp [enumerateDrain]

/-- Witness for c2_error_policy across all four accessors. -/
theorem c2_error_policy_witness :
    getSystemSetting ffBase "k" = .ok none ∧
    getSystemSetting ffThrowSettings "k" = .ok none ∧
    setSystemSetting ffBase "k" "v" = .ok false ∧
    setSystemSetting ffThrowSettings "k" "v" = .ok false ∧
    setSystemSetting ffErrSettings "k" "v" = .error "boom" ∧
    getStorageFiles ffThrowStorage "videos" = some (.ok []) ∧
    getStorageFiles ffErrStorage "videos" = some (.error "boom") ∧
    launchApp ffBase "o" = .ok false ∧
    launchApp ffCapOnly "o" = .ok false ∧
    launchApp ffErrApps "o" = .error "boom" :=
  ⟨(c2_error_policy ffBase pErr "k" "v" "o" "boom").1 rfl,
   (c2_error_policy ffThrowSettings pThrow "k" "v" "o" "boom").2.1 rfl rfl,
   (c2_error_policy ffBase pErr "k" "v" "o" "boom").2.2.2.1 rfl,
   (c2_error_policy ffThrowSettings pThrow "k" "v" "o" "boom").2.2.2.2.1 rfl rfl,
   (c2_error_policy ffErrSettings pErr "k" "v" "o" "boom").2.2.2.2.2.1 rfl rfl,
   (c2_error_policy ffThrowStorage pErr "k" "v" "o" "boom").2.2.2.2.2.2.1 rfl,
   (c2_error_policy ffErrStorage pErr "k" "v" "o" "boom").2.2.2.2.2.2.2.1 ["a"] rfl,
   (c2_error_policy ffBase pErr "k" "v" "o" "boom").2.2.2.2.2.2.2.2.1 rfl,
   (c2_error_policy ffCapOnly pErr "k" "v" "o" "boom").2.2.2.2.2.2.2.2.2.1 rfl rfl,
   (c2_error_policy ffErrApps pErr "k" "v" "o" "boom").2.2.2.2.2.2.2.2.2.2 rfl rfl⟩

/-- C5 counterexample: with no native system object but the Firefox OS path
available and a settings provider that rejects, getSystemInfo yields null —
not a record and not the placeholder — so it does not return a record under
every platform condition. -/
theorem c5_counterexample : getSystemInfo envFFErr = none := rfl

/-- C5 amended: getSystemInfo never rejects; it prefers the platform-native
record; it returns the placeholder record when the native call throws or when
the Firefox OS path is not taken (in particular under a fully-unavailable
platform); when the Firefox OS path is taken it returns whatever the
settings-derived path yields, which is null — not the placeholder — when a
settings read rejects. -/
theorem c5_getSystemInfo_total (env : PanasonicEnv) (info : SystemInfo)
    (st : FirefoxOSState) :
    (env.panasonicSystem = some (.returns info) → getSystemInfo env = some info) ∧
    (env.panasonicSystem = some .throws →
      getSystemInfo env = some fallbackSystemInfo) ∧
    (env.panasonicSystem = none → env.mozApps = false ∨ env.firefoxOSAPI = none →
      getSystemInfo env = some fallbackSystemInfo) ∧
    (env.panasonicSystem = none → env.mozApps = true →
      env.firefoxOSAPI = some st →
      getSystemInfo env = getFirefoxOSSystemInfo (some st)) ∧
    getSystemInfo envUnavailable = some fallbackSystemInfo := by
  refine ⟨fun h => by simp [getSystemInfo, h],
          fun h => by simp [getSystemInfo, h],
          fun h hor => ?_,
          fun h hmoz hff => by simp [getSystemInfo, h, hmoz, hff],
          rfl⟩
  rcases hor with hmoz | hff
  · simp [getSystemInfo, h, hmoz]
  · simp [getSystemInfo, h, hff]

/-- Witness for c5_getSystemInfo_total: all guarded branches at concrete
environments. -/
theorem c5_getSystemInfo_total_witness :
    getSystemInfo envNative = some demoInfo ∧
    getSystemInfo envThrows = some fallbackSystemInfo ∧
    getSystemInfo envNoFF = some fallbackSystemInfo ∧
    getSystemInfo envFF = getFirefoxOSSystemInfo (some ffBase) ∧
    getSystemInfo envUnavailable = some fallbackSystemInfo :=
  ⟨(c5_getSystemInfo_total envNative demoInfo ffBase).1 rfl,
   (c5_getSystemInfo_total envThrows demoInfo ffBase).2.1 rfl,
   (c5_getSystemInfo_total envNoFF demoInfo ffBase).2.2.1 rfl (Or.inr rfl),
   (c5_getSystemInfo_total envFF demoInfo ffBase).2.2.2.1 rfl rfl rfl,
   (c5_getSystemInfo_total envUnavailable demoInfo ffBase).2.2.2.2⟩

/-- C6: getStorageFiles yields the empty list for an invalid storage type and
for an unavailable storage area; against a cursor that yields a list of files
and then completes, it resolves exactly that list, in provider order. -/
theorem c6_listStorageFiles (st : FirefoxOSState) (storageType : String) :
    (storageOf st storageType = none →
      getStorageFiles st storageType = some (.ok [])) ∧
    (storageOf st storageType = some none →
      getStorageFiles st storageType = some (.ok [])) ∧
    (∀ files : List String,
      storageOf st storageType = some (some (.cursor (files.map CursorEvent.yield
        ++ [CursorEvent.complete]))) →
      getStorageFiles st storageType = some (.ok files)) := by
  refine ⟨fun h => by unfold getStorageFiles; rw [h],
          fun h => by unfold getStorageFiles; rw [h],
          fun files h => ?_⟩
  unfold getStorageFiles
  rw [h]
  show enumerateDrain [] (files.map CursorEvent.yield ++ [CursorEvent.complete])
    = some (.ok files)
  rw [enumerateDrain_yields files [] [CursorEvent.complete]]
  simp [enumerateDrain]

/-- Witness for c6_listStorageFiles: a provider yielding a, b, c then
completing resolves exactly that list; an unknown type and a missing storage
area yield the empty list. -/
theorem c6_listStorageFiles_witness :
    getStorageFiles ffBase "bogus" = some (.ok []) ∧
    getStorageFiles ffBase "videos" = some (.ok []) ∧
    getStorageFiles ffABCStorage "videos" = some (.ok ["a", "b", "c"]) :=
  ⟨(c6_listStorageFiles ffBase "bogus").1 rfl,
   (c6_listStorageFiles ffBase "videos").2.1 rfl,
   (c6_listStorageFiles ffABCStorage "videos").2.2 ["a", "b", "c"] rfl⟩

/-- C7 counterexample: with app management available and an installed app
matching the origin whose own launch request fails, launchApp still resolves
true — resolution does not wait for the launch success signal of the
provider. -/
theorem c7_counterexample :
    launchApp ffLaunchFail "app://target" = .ok true ∧
    launchFailApp.launchSucceeds = false :=
  ⟨rfl, rfl⟩

/-- C7 amended: launchApp resolves false when app management is unavailable
or no installed app matches; when the installed-apps lookup succeeds and some
app matches, it issues the launch request and resolves true immediately,
without awaiting the launch request outcome. -/
theorem c7_launchApp_resolution (st : FirefoxOSState) (appOrigin : String)
    (apps : List AppInfo) :
    (st.appsCapability = false → launchApp st appOrigin = .ok false) ∧
    (st.appsCapability = true → st.installedApps = .success apps →
      apps.find? (fun a => a.origin == appOrigin) = none →
      launchApp st appOrigin = .ok false) ∧
    (st.appsCapability = true → st.installedApps = .success apps →
      ∀ a : AppInfo, apps.find? (fun a2 => a2.origin == appOrigin) = some a →
        launchApp st appOrigin = .ok true) :=
  ⟨fun h => by simp [launchApp, h],
   fun h hli hfind => by simp [launchApp, h, hli, hfind],
   fun h hli a hfind => by simp [launchApp, h, hli, hfind]⟩

/-- Witness for c7_launchApp_resolution: no capability, no match, and a
matching app. -/
theorem c7_launchApp_resolution_witness :
    launchApp ffBase "app://x" = .ok false ∧
    launchApp ffEmptyApps "app://x" = .ok false ∧
    launchApp ffMusicApps "app://music" = .ok true :=
  ⟨(c7_launchApp_resolution ffBase "app://x" []).1 rfl,
   (c7_launchApp_resolution ffEmptyApps "app://x" []).2.1 rfl rfl rfl,
   (c7_launchApp_resolution ffMusicApps "app://music" [musicApp]).2.2 rfl rfl
      musicApp (by simp [musicApp])⟩

end OpenPanasonicApp
